import Mathlib

/-!
Shallow embedding of the diabetes risk-assessment app
(`src/app/utils.py`, `src/app/state.py`, `src/app/pages/risk.py`,
`src/app/pages/Results.py`, `src/app/leggo.py`).

Numbers are modelled as exact rationals; Python `None` becomes `Option.none`;
Python truthiness of an optional number (`None` and `0` are falsy) is `truthy`;
`round(x, 1)` is round-half-to-even on tenths; a pluggable trained model is a
function that may fail (`Except`), mirroring the `try/except` around
`predict_proba`.
-/

namespace DiabetesApp

/-- Python truthiness of an optional numeric field: `None` and `0` are falsy. -/
def truthy : Option ℚ → Bool
  | none => false
  | some x => decide (x ≠ 0)

/-- Round a rational to the nearest integer, ties to the even integer
(the rounding Python's builtin `round` uses). -/
def roundHalfEven (q : ℚ) : ℤ :=
  let f := ⌊q⌋
  let frac := q - (f : ℚ)
  if frac < 1/2 then f
  else if 1/2 < frac then f + 1
  else if f % 2 = 0 then f else f + 1

/-- Python `round(x, 1)`: round to one decimal place, ties to even. -/
def round1 (q : ℚ) : ℚ := (roundHalfEven (10 * q) : ℚ) / 10

/-- Embeds `utils.calc_bmi`: `None` when weight or height is falsy or height ≤ 0,
otherwise `round(weight_kg / (h_m * h_m), 1)` with `h_m = height_cm / 100`. -/
def calc_bmi (weight_kg height_cm : Option ℚ) : Option ℚ :=
  match weight_kg, height_cm with
  | some w, some h =>
    if w = 0 ∨ h = 0 ∨ h ≤ 0 then none
    else some (round1 (w / (h / 100 * (h / 100))))
  | _, _ => none

/-- Embeds `utils.label_from_prob`: threshold classifier on the probability. -/
def label_from_prob (p : ℚ) : String :=
  if p < 34/100 then "Low"
  else if p < 67/100 then "Medium"
  else "High"

/-- The feature dict handed to the predictor (`age`, `bmi` entries;
a stored Python `None` value is `Option.none`). -/
structure Features where
  age : Option ℚ
  bmi : Option ℚ
deriving DecidableEq

/-- A pluggable trained model, as used in the `try` block of
`utils.model_predict_prob`: it receives `features.get("age", 0)` and
`features.get("bmi", 0)` (the stored values, since the keys are present)
and either yields a probability or raises (`Except.error`). -/
abbrev Model : Type := Option ℚ → Option ℚ → Except Unit ℚ

/-- Python `min(a, b)` on two numbers: `b` when `b < a`, else `a`. -/
def pyMin (a b : ℚ) : ℚ := if b < a then b else a

/-- Python `max(a, b)` on two numbers: `b` when `a < b`, else `a`. -/
def pyMax (a b : ℚ) : ℚ := if a < b then b else a

/-- The rule-based fallback branch of `utils.model_predict_prob`:
`age or 0`, `bmi or 0`, contributions above 30 / 25, clamp to [0, 1]. -/
def fallback_score (features : Features) : ℚ :=
  let age := features.age.getD 0
  let bmi := features.bmi.getD 0
  let score : ℚ := 0
  let score := score + (if 30 < age then (age - 30) * (1/100) else 0)
  let score := score + (if 25 < bmi then (bmi - 25) * (2/100) else 0)
  pyMax 0 (pyMin 1 score)

/-- Embeds `utils.model_predict_prob`: when a model is loaded, try it and clamp its
answer to [0, 1]; on any failure, or with no model, use the rule-based
fallback. -/
def model_predict_prob (model : Option Model) (features : Features) : ℚ :=
  match model with
  | some m =>
    match m features.age features.bmi with
    | Except.ok prob => pyMax 0 (pyMin 1 prob)
    | Except.error _ => fallback_score features
  | none => fallback_score features

/-- The in-progress form (`st.session_state[CURRENT_FORM_KEY]`). -/
structure Form where
  age : Option ℚ
  weight : Option ℚ
  height : Option ℚ
  bmi : Option ℚ
deriving DecidableEq

/-- The form as `ensure_state` initialises it and `clear_current` resets it. -/
def emptyForm : Form := ⟨none, none, none, none⟩

/-- The current result (`st.session_state[CURRENT_RESULT_KEY]`): probability,
label, timestamp, and the `form.copy()` snapshot taken at scoring time. -/
structure ResultR where
  prob : ℚ
  label : String
  created_at : String
  inputs : Form
deriving DecidableEq

/-- A history entry as built by `state.save_assessment`. -/
structure RecordR where
  created_at : String
  age : Option ℚ
  weight : Option ℚ
  height : Option ℚ
  bmi : Option ℚ
  risk_prob : ℚ
  risk_label : String
deriving DecidableEq

/-- The session state relevant to the workflow: the assessments history, the
in-progress form, and the current result. -/
structure AppState where
  assessments : List RecordR
  current_form : Form
  current_result : Option ResultR
deriving DecidableEq

/-- Embeds `state.save_assessment`: append one record whose `created_at`,
`risk_prob`, `risk_label` come from the result and whose `age`, `weight`,
`height`, `bmi` are read from the current in-progress form. -/
def save_assessment (result : ResultR) (s : AppState) : AppState :=
  { s with assessments := s.assessments ++
      [⟨result.created_at, s.current_form.age, s.current_form.weight,
        s.current_form.height, s.current_form.bmi, result.prob, result.label⟩] }

/-- Embeds `state.clear_current`: reset the in-progress form and the current result. -/
def clear_current (s : AppState) : AppState :=
  { s with current_form := emptyForm, current_result := none }

/-- The feature dict `risk.py` passes to `model_predict_prob` (the whole form;
only the `age` and `bmi` entries are read). -/
def featuresOfForm (f : Form) : Features := ⟨f.age, f.bmi⟩

/-- The widget/render phase of `risk.py`: the entered values are written into
the form and `bmi` is recomputed when weight and height are both truthy. -/
def render_form (age weight height : Option ℚ) (f : Form) : Form :=
  let f1 : Form := ⟨age, weight, height, f.bmi⟩
  if truthy f1.weight && truthy f1.height then
    ⟨f1.age, f1.weight, f1.height, calc_bmi f1.weight f1.height⟩
  else f1

/-- Outcome of a submission of the risk-assessment form. -/
inductive SubmitOutcome
  | validationFailure
  | success
deriving DecidableEq

/-- The `if submitted:` handler of `risk.py`: validate that age, weight,
height and bmi are all truthy (`all([...])`); on failure report a validation
error and stop; on success run the predictor, classify, and store the current
result together with a snapshot of the form. -/
def submit_assessment (model : Option Model) (now : String)
    (age weight height : Option ℚ) (s : AppState) : SubmitOutcome × AppState :=
  let form1 := render_form age weight height s.current_form
  let s1 : AppState := ⟨s.assessments, form1, s.current_result⟩
  if truthy form1.age && truthy form1.weight && truthy form1.height &&
      truthy form1.bmi then
    let prob := model_predict_prob model (featuresOfForm form1)
    let label := label_from_prob prob
    (SubmitOutcome.success, ⟨s1.assessments, s1.current_form,
      some ⟨prob, label, now, form1⟩⟩)
  else
    (SubmitOutcome.validationFailure, s1)

/-- User data handed to `leggo.DiabetesRiskPredictor.calculate_risk_score`
(only the fields that function reads). -/
structure UserData where
  age : ℚ
  bmi : ℚ
  family_history : Bool
  regular_exercise : Bool
  high_bp : Bool
  high_glucose : Bool
deriving DecidableEq

/-- Python `int()` on a number: truncation toward zero. -/
def pyInt (q : ℚ) : ℤ := if 0 ≤ q then ⌊q⌋ else ⌈q⌉

/-- Embeds `leggo.DiabetesRiskPredictor.calculate_risk_score`: additive point score,
then (risk_score, risk_level, risk_percentage). -/
def calculate_risk_score (u : UserData) : ℤ × String × ℤ :=
  let score : ℤ := 0
  let score := score + (if 45 ≤ u.age then 20 else if 35 ≤ u.age then 10 else 0)
  let score := score +
    (if 30 ≤ u.bmi then 30 else if 25 ≤ u.bmi then 20
     else if 23 ≤ u.bmi then 10 else 0)
  let score := score + (if u.family_history then 25 else 0)
  let score := score + (if !u.regular_exercise then 15 else 0)
  let score := score + (if u.high_bp then 15 else 0)
  let score := score + (if u.high_glucose then 20 else 0)
  if score ≤ 30 then
    (score, "Low Risk", pyInt (min ((score : ℚ) * 2) 25))
  else if score ≤ 60 then
    (score, "Medium Risk", pyInt (min (30 + ((score : ℚ) - 30) * (3/2)) 60))
  else
    (score, "High Risk", pyInt (min (60 + ((score : ℚ) - 60) * (6/5)) 90))

/-- Discrete risk tier. -/
inductive Tier
  | Low
  | Medium
  | High
deriving DecidableEq

/-- The tier word each tier displays as. -/
def Tier.name : Tier → String
  | Tier.Low => "Low"
  | Tier.Medium => "Medium"
  | Tier.High => "High"

/-- C2: `label_from_prob` is total and deterministic with the fixed
thresholds: p < 0.34 → Low, 0.34 ≤ p < 0.67 → Medium, 0.67 ≤ p → High;
in particular 0.34 itself maps to Medium and 0.67 itself to High. -/
theorem label_from_prob_thresholds (p : ℚ) :
    (p < 34/100 → label_from_prob p = "Low") ∧
    (34/100 ≤ p → p < 67/100 → label_from_prob p = "Medium") ∧
    (67/100 ≤ p → label_from_prob p = "High") ∧
    label_from_prob (34/100) = "Medium" ∧
    label_from_prob (67/100) = "High" := by
  refine ⟨?_, ?_, ?_, by norm_num [label_from_prob], by norm_num [label_from_prob]⟩
  · intro h
    simp [label_from_prob, h]
  · intro h1 h2
    rw [label_from_prob, if_neg (by linarith), if_pos h2]
  · intro h
    rw [label_from_prob, if_neg (by linarith), if_neg (by linarith)]

/-- Witness for C2 at concrete probabilities 0, 1/2 and 1. -/
theorem label_from_prob_thresholds_witness :
    label_from_prob 0 = "Low" ∧ label_from_prob (1/2) = "Medium" ∧
    label_from_prob 1 = "High" :=
  ⟨(label_from_prob_thresholds 0).1 (by norm_num),
   (label_from_prob_thresholds (1/2)).2.1 (by norm_num) (by norm_num),
   (label_from_prob_thresholds 1).2.2.1 (by norm_num)⟩

/-- Evaluating `calc_bmi` on two present values that pass the guard. -/
theorem calc_bmi_some (w h : ℚ) (hw : w ≠ 0) (hh : 0 < h) :
    calc_bmi (some w) (some h) = some (round1 (w / (h / 100 * (h / 100)))) := by
  rw [calc_bmi, if_neg]
  push_neg
  exact ⟨hw, by linarith, by linarith⟩

/-- C3 counterexample: a negative weight with a positive height is not
rejected — `calc_bmi (-5) 170` returns the rounded negative quotient
`-1.7`, not the unavailable result. -/
theorem calc_bmi_negative_weight_not_none :
    calc_bmi (some (-5)) (some 170) = some (-(17/10)) ∧
    calc_bmi (some (-5)) (some 170) ≠ none := by
  have h0 : calc_bmi (some (-5)) (some 170) = some (-(17/10)) := by
    have h1 : (10 : ℚ) * ((-5) / (170 / 100 * (170 / 100))) = -5000/289 := by
      norm_num
    have h2 : ⌊(-5000/289 : ℚ)⌋ = -18 := by
      rw [Int.floor_eq_iff]
      norm_num
    rw [calc_bmi_some (-5) 170 (by norm_num) (by norm_num), round1, h1,
      roundHalfEven, h2]
    norm_num
  exact ⟨h0, by rw [h0]; exact Option.some_ne_none _⟩

/-- C3 amended: `calc_bmi` returns `none` when either input is missing or
zero, or when the height is negative; for any nonzero weight (including a
negative one) with positive height it returns
`round1 (weight / (height/100)^2)`; it never raises (it is a total
function). -/
theorem calc_bmi_cases (w h : ℚ) :
    calc_bmi none (some h) = none ∧
    calc_bmi (some w) none = none ∧
    calc_bmi none none = none ∧
    (w = 0 ∨ h ≤ 0 → calc_bmi (some w) (some h) = none) ∧
    (w ≠ 0 → 0 < h →
      calc_bmi (some w) (some h) = some (round1 (w / (h / 100 * (h / 100))))) := by
  refine ⟨rfl, rfl, rfl, ?_, ?_⟩
  · intro hzero
    rcases hzero with hw | hh
    · simp [calc_bmi, hw]
    · rcases eq_or_lt_of_le hh with hh0 | hh0
      · simp [calc_bmi, hh0.symm]
      · rw [calc_bmi, if_pos (Or.inr (Or.inr hh0.le))]
  · intro hw hh
    exact calc_bmi_some w h hw hh

/-- Witness for C3 amended at weight 0 (unavailable) and at the negative
weight −5 with height 170 (value returned). -/
theorem calc_bmi_cases_witness :
    calc_bmi (some 0) (some 170) = none ∧
    calc_bmi (some (-5)) (some 170) =
      some (round1 ((-5) / (170 / 100 * (170 / 100)))) :=
  ⟨(calc_bmi_cases 0 170).2.2.2.1 (Or.inl rfl),
   (calc_bmi_cases (-5) 170).2.2.2.2 (by norm_num) (by norm_num)⟩

/-- C4: with no trained model configured the predictor is the rule-based
score; scenario: weight 95 kg and height 170 cm give bmi 32.9, and with age
50 the probability is the clamp of (50−30)·0.01 + (32.9−25)·0.02 = 0.358,
classified Medium. -/
theorem rule_based_scenario1 :
    calc_bmi (some 95) (some 170) = some (329/10) ∧
    model_predict_prob none ⟨some 50, some (329/10)⟩ =
      pyMax 0 (pyMin 1 ((50 - 30) * (1/100) + (329/10 - 25) * (2/100))) ∧
    model_predict_prob none ⟨some 50, some (329/10)⟩ = 358/1000 ∧
    label_from_prob (model_predict_prob none ⟨some 50, some (329/10)⟩) =
      "Medium" := by
  have hbmi : calc_bmi (some 95) (some 170) = some (329/10) := by
    have h1 : (10 : ℚ) * (95 / (170 / 100 * (170 / 100))) = 95000/289 := by
      norm_num
    have h2 : ⌊(95000/289 : ℚ)⌋ = 328 := by
      rw [Int.floor_eq_iff]
      norm_num
    rw [calc_bmi_some 95 170 (by norm_num) (by norm_num), round1, h1,
      roundHalfEven, h2]
    norm_num
  have hprob : model_predict_prob none ⟨some 50, some (329/10)⟩ = 358/1000 := by
    rw [model_predict_prob, fallback_score]
    norm_num [pyMin, pyMax]
  refine ⟨hbmi, ?_, hprob, ?_⟩
  · rw [hprob]
    norm_num [pyMin, pyMax]
  · rw [hprob, label_from_prob]
    norm_num

/-- The clamp `max(0.0, min(1.0, x))` always lands in [0, 1]. -/
theorem clamp01_mem (x : ℚ) :
    0 ≤ pyMax 0 (pyMin 1 x) ∧ pyMax 0 (pyMin 1 x) ≤ 1 := by
  unfold pyMax pyMin
  split_ifs <;> constructor <;> linarith

/-- C5: for any optional model and any feature values, the predicted
probability lies in the closed interval [0, 1]. -/
theorem model_predict_prob_mem_unit (model : Option Model) (f : Features) :
    0 ≤ model_predict_prob model f ∧ model_predict_prob model f ≤ 1 := by
  have hfb : 0 ≤ fallback_score f ∧ fallback_score f ≤ 1 := clamp01_mem _
  rcases model with _ | m
  · exact hfb
  · rw [model_predict_prob]
    rcases m f.age f.bmi with e | p
    · exact hfb
    · exact clamp01_mem p

/-- C6: when the model invocation raises, `model_predict_prob` swallows the
failure and returns the rule-based fallback score — the same value the
no-model predictor returns; no error reaches the caller. -/
theorem model_failure_falls_back (m : Model) (f : Features) (e : Unit)
    (h : m f.age f.bmi = Except.error e) :
    model_predict_prob (some m) f = fallback_score f ∧
    model_predict_prob (some m) f = model_predict_prob none f := by
  rw [model_predict_prob, h]
  exact ⟨rfl, rfl⟩

/-- Witness for C6: a model that always raises falls back to the rule-based
score on the scenario-1 features. -/
theorem model_failure_falls_back_witness :
    model_predict_prob (some fun _ _ => Except.error ())
        ⟨some 50, some (329/10)⟩ =
      fallback_score ⟨some 50, some (329/10)⟩ ∧
    model_predict_prob (some fun _ _ => Except.error ())
        ⟨some 50, some (329/10)⟩ =
      model_predict_prob none ⟨some 50, some (329/10)⟩ :=
  model_failure_falls_back (fun _ _ => Except.error ())
    ⟨some 50, some (329/10)⟩ () rfl

/-- C1: `save_assessment` appends unconditionally on every call — there is
no idempotency guard. Recording the same result twice (as `Results.py` does
on a re-render) grows the history from one record to two. -/
theorem save_assessment_appends_every_call :
    ((save_assessment ⟨358/1000, "Medium", "t0", emptyForm⟩
        ⟨[], emptyForm, none⟩).assessments).length = 1 ∧
    ((save_assessment ⟨358/1000, "Medium", "t0", emptyForm⟩
        (save_assessment ⟨358/1000, "Medium", "t0", emptyForm⟩
          ⟨[], emptyForm, none⟩)).assessments).length = 2 :=
  ⟨rfl, rfl⟩

/-- C7: when any of age, weight, height or the derived bmi is falsy after
the render phase, the submission reports a validation failure, no result is
stored (the run stays in the draft stage, unscored) and the history is
untouched. -/
theorem submit_validation_failure (model : Option Model) (now : String)
    (age weight height : Option ℚ) (s : AppState)
    (h : truthy (render_form age weight height s.current_form).age = false ∨
         truthy (render_form age weight height s.current_form).weight = false ∨
         truthy (render_form age weight height s.current_form).height = false ∨
         truthy (render_form age weight height s.current_form).bmi = false) :
    (submit_assessment model now age weight height s).1 =
      SubmitOutcome.validationFailure ∧
    (submit_assessment model now age weight height s).2.assessments =
      s.assessments ∧
    (submit_assessment model now age weight height s).2.current_result =
      s.current_result := by
  have hcond : (truthy (render_form age weight height s.current_form).age &&
      truthy (render_form age weight height s.current_form).weight &&
      truthy (render_form age weight height s.current_form).height &&
      truthy (render_form age weight height s.current_form).bmi) = false := by
    rcases h with h | h | h | h <;> simp [h]
  simp [submit_assessment, hcond]

/-- Witness for C7: submitting height 0 on a fresh session fails validation
and leaves both the history and the current result empty. -/
theorem submit_validation_failure_witness :
    (submit_assessment none "t0" (some 30) (some 70) (some 0)
        ⟨[], emptyForm, none⟩).1 = SubmitOutcome.validationFailure ∧
    (submit_assessment none "t0" (some 30) (some 70) (some 0)
        ⟨[], emptyForm, none⟩).2.assessments = ([] : List RecordR) ∧
    (submit_assessment none "t0" (some 30) (some 70) (some 0)
        ⟨[], emptyForm, none⟩).2.current_result = (none : Option ResultR) :=
  submit_validation_failure none "t0" (some 30) (some 70) (some 0)
    ⟨[], emptyForm, none⟩
    (Or.inr (Or.inr (Or.inl (by simp [render_form, truthy, emptyForm]))))

/-- C8 counterexample: the appended record reads the profile fields from the
in-progress form at recording time, not from the snapshot stored in the
result — with the form changed to age 99 after a result snapshotted at age
50, the recorded age is 99, not the snapshot's 50. -/
theorem record_fields_from_form_not_snapshot :
    ((save_assessment
        ⟨358/1000, "Medium", "t0", ⟨some 50, some 95, some 170, some (329/10)⟩⟩
        ⟨[], ⟨some 99, some 60, some 180, some (37/2)⟩, none⟩).assessments.map
        RecordR.age) = [some 99] ∧
    (⟨358/1000, "Medium", "t0",
        ⟨some 50, some 95, some 170, some (329/10)⟩⟩ : ResultR).inputs.age =
      some 50 ∧
    ¬((99 : ℚ) = 50) :=
  ⟨by simp [save_assessment], rfl, by norm_num⟩

/-- C8 amended: the record takes created_at, probability and tier from the
result and the profile fields from the in-progress form at recording time;
whenever the form still equals the snapshot captured in the result, the
record is exactly the claimed projection of the result. -/
theorem save_assessment_record_shape (r : ResultR) (s : AppState)
    (h : s.current_form = r.inputs) :
    (save_assessment r s).assessments =
      s.assessments ++ [⟨r.created_at, r.inputs.age, r.inputs.weight,
        r.inputs.height, r.inputs.bmi, r.prob, r.label⟩] := by
  rw [save_assessment, h]

/-- Witness for C8 amended: with the form equal to the snapshot, the single
appended record carries exactly the result's data. -/
theorem save_assessment_record_shape_witness :
    (save_assessment
        ⟨358/1000, "Medium", "t0", ⟨some 50, some 95, some 170, some (329/10)⟩⟩
        ⟨[], ⟨some 50, some 95, some 170, some (329/10)⟩, none⟩).assessments =
      [⟨"t0", some 50, some 95, some 170, some (329/10), 358/1000, "Medium"⟩] :=
  save_assessment_record_shape
    ⟨358/1000, "Medium", "t0", ⟨some 50, some 95, some 170, some (329/10)⟩⟩
    ⟨[], ⟨some 50, some 95, some 170, some (329/10)⟩, none⟩ rfl

/-- C9: the two risk schemes in the source diverge — for age 46 and bmi 30
with no other risk factors the additive point-score classifier answers the
Medium tier while the linear formula plus threshold classifier answers the
Low tier. -/
theorem risk_schemes_diverge :
    ∃ t₁ t₂ : Tier,
      (calculate_risk_score ⟨46, 30, false, true, false, false⟩).2.1 =
        t₁.name ++ " Risk" ∧
      label_from_prob (model_predict_prob none ⟨some 46, some 30⟩) =
        t₂.name ∧
      t₁ ≠ t₂ := by
  refine ⟨Tier.Medium, Tier.Low, ?_, ?_, by simp⟩
  · rw [calculate_risk_score]
    norm_num [Tier.name]
    rfl
  · rw [model_predict_prob, fallback_score]
    norm_num [pyMin, pyMax, label_from_prob, Tier.name]

/-- C10: `clear_current` resets only the in-progress form and the current
result; the assessments history is exactly what it was before. -/
theorem clear_current_frame (s : AppState) :
    (clear_current s).assessments = s.assessments ∧
    (clear_current s).current_form = emptyForm ∧
    (clear_current s).current_result = none :=
  ⟨rfl, rfl, rfl⟩

end DiabetesApp
